import Mathlib

/-!
Shallow embedding of the ADMET decision pipeline and docking aggregation of
the DrugsWindowsv2 repository (src/admet_analysis.py, src/docking.py).

Rows are modelled as association lists from field names to values; a Python
value that matters to the pipeline is either a string or a number (floats and
ints are modelled as rationals).  Absent fields are modelled by a missing key,
matching `dict.get` / `row.get` semantics.
-/

namespace DrugsPipeline

/-- A Python value as seen by the pipeline: a string or a number. -/
inductive Val where
  | str : String → Val
  | num : Rat → Val
deriving DecidableEq, Repr

/-- A compound row: association list from field name to value. -/
abbrev Row := List (String × Val)

/-- Model of `row.get(key)`: first binding of the key, if any. -/
def getv (row : Row) (k : String) : Option Val :=
  match row with
  | [] => none
  | (k', v) :: rest => if k' = k then some v else getv rest k

/-- Model of `row.get(key, default)`. -/
def getD (row : Row) (k : String) (d : Val) : Val :=
  (getv row k).getD d

/-- Numeric value of a digit character. -/
def digitVal (c : Char) : Nat := c.toNat - 48

/-- Decimal number denoted by a digit list (most significant first). -/
def natOfDigits (cs : List Char) : Nat :=
  cs.foldl (fun n c => 10 * n + digitVal c) 0

/-- Modelled subset of Python's `float()` builtin on a character list:
an optional sign followed by decimal digits with an optional fractional part
(no exponents, `inf`, `nan` or surrounding whitespace).  The digits before and
after the point denote the rational `sign * (ip.fp)`, built here with integer
arithmetic and one `mkRat`.  `none` models the `ValueError` that the source
catches. -/
def pyFloatL? (cs : List Char) : Option Rat :=
  let sd : Int × List Char :=
    match cs with
    | '-' :: rest => (-1, rest)
    | '+' :: rest => (1, rest)
    | _ => (1, cs)
  let sign := sd.1
  let ds := sd.2
  let ip := ds.takeWhile (fun c => c ≠ '.')
  let rest := ds.dropWhile (fun c => c ≠ '.')
  if ip.all Char.isDigit then
    match rest with
    | [] => if ip = [] then none else some (mkRat (sign * natOfDigits ip) 1)
    | _ :: fp =>
      if fp.all Char.isDigit ∧ (ip ≠ [] ∨ fp ≠ []) then
        some (mkRat (sign * (natOfDigits ip * 10 ^ fp.length + natOfDigits fp))
          (10 ^ fp.length))
      else none
  else none

/-- Python `float()` applied to a string. -/
def pyFloat? (s : String) : Option Rat := pyFloatL? s.toList

/-- Python `float(v)` for a pipeline value: numbers pass through, strings are
parsed; `none` models the raised `ValueError`/`TypeError`. -/
def Val.toFloat? : Val → Option Rat
  | .num x => some x
  | .str s => pyFloat? s

/-- The `get_float` helper of `apply_developability_filters`:
`float(row.get(key, default))` with the exception swallowed to the default.
The same try/except pattern is used inline in `calculate_developability_score`
and for PPB in `calculate_adme_penalties`. -/
def get_float (row : Row) (k : String) (d : Rat) : Rat :=
  match getv row k with
  | none => d
  | some v => (Val.toFloat? v).getD d

/-- Does the value compare `>= c` the way Python's
`isinstance(v, (int, float)) and v >= c` does? -/
def Val.isNumGE (v : Val) (c : Rat) : Bool :=
  match v with
  | .num x => c ≤ x
  | .str _ => false

/-- Does the value lie in `[lo, hi)` the way Python's
`isinstance(v, (int, float)) and lo <= v < hi` does? -/
def Val.inBand (v : Val) (lo hi : Rat) : Bool :=
  match v with
  | .num x => lo ≤ x ∧ x < hi
  | .str _ => false

/-- Stage 1 of `admet_analysis.py`: primary hard filters.
Returns the `(verdict, reason)` pair of the first matching rule. -/
def apply_primary_filters (row : Row) : String × Option String :=
  if getv row "Lipinski" = some (.str "Fail") then ("REJECT", some "Lipinski Fail")
  else if getv row "PAINS" = some (.str "Yes") then ("REJECT", some "PAINS Alert")
  else if getv row "Brenk" = some (.str "Yes") then ("REJECT", some "Brenk Alert")
  else if getv row "Ames" = some (.str "Positive") ∨ getv row "Ames" = some (.num 1) then
    ("REJECT", some "Ames Positive")
  else
    let herg := getD row "hERG" (.str "")
    if herg = .str "High" ∨ herg.isNumGE (mkRat 7 10) then ("REJECT", some "hERG High Risk")
    else if herg = .str "Medium" ∨ herg.inBand (mkRat 3 10) (mkRat 7 10) then ("REVIEW", some "hERG Medium Risk")
    else if getv row "Carcinogenicity" = some (.str "Yes") ∨
        getv row "Carcinogenicity" = some (.num 1) then ("REJECT", some "Carcinogenic")
    else
      let dili := getD row "DILI" (.str "")
      if dili = .str "High" ∨ dili.isNumGE (mkRat 7 10) then ("REJECT", some "DILI High Risk")
      else if dili = .str "Medium" ∨ dili.inBand (mkRat 3 10) (mkRat 7 10) then ("REVIEW", some "DILI Medium Risk")
      else ("PASS", none)

/-- Stage 2 of `admet_analysis.py`: developability soft filters.
Each descriptor contributes to the reject or the review reason list
(`if`/`elif` per descriptor); rejects win over reviews, reasons are joined
with `"; "`. -/
def apply_developability_filters (row : Row) : String × Option String :=
  let sa := get_float row "SA Score" 5
  let qed := get_float row "QED" (mkRat 6 10)
  let mw := get_float row "MW" 400
  let tpsa := get_float row "TPSA" 100
  let wlogp := get_float row "WLogP" 3
  let saR : List String × List String :=
    if sa > 6 then (["SA > 6.0"], [])
    else if 5 < sa ∧ sa ≤ 6 then ([], ["SA 5.0-6.0"]) else ([], [])
  let qedR : List String × List String :=
    if qed < mkRat 4 10 then (["QED < 0.4"], [])
    else if mkRat 4 10 ≤ qed ∧ qed < mkRat 6 10 then ([], ["QED 0.4-0.6"]) else ([], [])
  let mwR : List String × List String :=
    if mw > 550 then (["MW > 550"], [])
    else if 500 ≤ mw ∧ mw ≤ 550 then ([], ["MW 500-550"]) else ([], [])
  let tpsaR : List String × List String :=
    if tpsa > 160 then (["TPSA > 160"], [])
    else if 140 ≤ tpsa ∧ tpsa ≤ 160 then ([], ["TPSA 140-160"]) else ([], [])
  let wlogpR : List String × List String :=
    if wlogp > 6 then (["WLogP > 6"], [])
    else if 5 ≤ wlogp ∧ wlogp ≤ 6 then ([], ["WLogP 5-6"]) else ([], [])
  let rejects := saR.1 ++ qedR.1 ++ mwR.1 ++ tpsaR.1 ++ wlogpR.1
  let reviews := saR.2 ++ qedR.2 ++ mwR.2 ++ tpsaR.2 ++ wlogpR.2
  if rejects ≠ [] then ("REJECT", some (String.intercalate "; " rejects))
  else if reviews ≠ [] then ("REVIEW", some (String.intercalate "; " reviews))
  else ("ACCEPT", none)

/-- Stage 3 of `admet_analysis.py`: ADME penalty accumulation.
Python accumulates a non-negative integer, modelled as a `Nat`. -/
def calculate_adme_penalties (row : Row) : Nat :=
  let gi := getD row "GI Absorption" (.str "High")
  let p1 : Nat := if gi = .str "Medium" ∨ gi = .str "Moderate" then 5 else 0
  let p2 : Nat := if getD row "Caco-2 (Wang)" (.str "") = .str "Moderate" then 5 else 0
  let p3 : Nat := if getD row "BBB (Martins)" (.str "") = .str "Borderline" then 5 else 0
  let ppb := get_float row "PPB (AZ)" 90
  let p4 : Nat := if 95 ≤ ppb then 5 else 0
  let p5 : Nat := if getv row "CYP3A4 Inhibition" = some (.str "Yes") ∨
      getv row "CYP3A4 Inhibition" = some (.str "Weak") ∨
      getv row "CYP3A4 Inhibition" = some (.num 1) then 5 else 0
  let p6 : Nat := if getv row "CYP2D6 Inhibition" = some (.str "Yes") ∨
      getv row "CYP2D6 Inhibition" = some (.str "Weak") ∨
      getv row "CYP2D6 Inhibition" = some (.num 1) then 5 else 0
  let herg := getD row "hERG" (.str "")
  let p7 : Nat := if herg = .str "Medium" ∨ herg.inBand (mkRat 3 10) (mkRat 7 10) then 10 else 0
  p1 + p2 + p3 + p4 + p5 + p6 + p7

/-- Continuation of Stage 4 after the SA branch: starting penalty `p0`, the
QED penalty, then the ADME penalties; result `max 0 (100 - penalty)`. -/
def score_after_sa (row : Row) (p0 : Nat) : Int :=
  let qed := get_float row "QED" (mkRat 6 10)
  let p1 : Nat := if qed < mkRat 6 10 then p0 + 10 else p0
  let p2 : Nat := p1 + calculate_adme_penalties row
  max 0 (100 - (p2 : Int))

/-- Stage 4 of `admet_analysis.py`: composite developability score.
The `docking_score` argument is accepted and ignored, exactly as in the
source.  SA in `[5.0, 6.0]` starts the penalty at 10; SA above 6.0 returns 0
immediately. -/
def calculate_developability_score (row : Row) (docking_score : Option Val) : Int :=
  let _ := docking_score
  let sa := get_float row "SA Score" 5
  if 5 ≤ sa ∧ sa ≤ 6 then score_after_sa row 10
  else if 6 < sa then 0
  else score_after_sa row 0

/-- Stage 5 of `admet_analysis.py`: verdict from the composite score. -/
def make_final_decision (developability_score : Int) : String :=
  if 75 ≤ developability_score then "ACCEPT"
  else if 60 ≤ developability_score ∧ developability_score < 75 then "REVIEW"
  else "REJECT"

/-- Python f-string rendering of an optional reason (a missing reason would
print as `None`). -/
def optStr : Option String → String
  | none => "None"
  | some s => s

/-- Body of the decision loop of `run_admet_prediction` (step 6) for one row:
terminal Stage 1/2 rejects record score 0 and skip the later stages
(`continue`); otherwise the score, the Stage 5 verdict and the REVIEW-warning
override produce the displayed decision. -/
def decideRow (row : Row) : String × Int :=
  let pr := apply_primary_filters row
  if pr.1 = "REJECT" then
    ("REJECT (" ++ optStr pr.2 ++ ")", 0)
  else
    let dr := apply_developability_filters row
    if dr.1 = "REJECT" then
      ("REJECT (" ++ optStr dr.2 ++ ")", 0)
    else
      let score := calculate_developability_score row (getv row "Docking Score")
      let final_dec := make_final_decision score
      let warnings : List String :=
        (if pr.1 = "REVIEW" then [optStr pr.2] else []) ++
        (if dr.1 = "REVIEW" then [optStr dr.2] else [])
      if warnings = [] then (final_dec, score)
      else
        let wt := String.intercalate "; " warnings
        if final_dec = "ACCEPT" then ("REVIEW (" ++ wt ++ ")", score)
        else (final_dec ++ " (" ++ wt ++ ")", score)

/-- The Scenario B row of the spec: hERG 0.5, SA 5.5, QED 0.7, MW 300,
TPSA 50, WLogP 2, GI Absorption High, no other fields. -/
def rowB : Row :=
  [("hERG", .num (mkRat 5 10)), ("SA Score", .num (mkRat 55 10)), ("QED", .num (mkRat 7 10)),
   ("MW", .num 300), ("TPSA", .num 50), ("WLogP", .num 2),
   ("GI Absorption", .str "High")]

/-- Outcome of the strict RDKit path of `pdb_to_smiles` on one file:
either it produces a SMILES (parse, sanitize and write all succeed), or it
fails at some point (parse returns `None` or raises, or `SanitizeMol` /
`MolToSmiles` raises).  The external library is modelled by its outcome. -/
inductive RDKitOutcome where
  | fail
  | ok (smiles : String)
deriving DecidableEq, Repr

/-- Outcome of one `subprocess.run` call: an exception (missing executable,
timeout, ...) or completion with a return code and captured stdout. -/
inductive SubprocOutcome where
  | raises
  | completes (returncode : Int) (stdout : String)
deriving DecidableEq, Repr

/-- The timeout passed to the OpenBabel subprocess in `pdb_to_smiles`. -/
def OBABEL_TIMEOUT : Nat := 10

/-- Python `s.strip()` as a character list. -/
def pyStrip (s : String) : List Char :=
  ((s.toList.dropWhile Char.isWhitespace).reverse.dropWhile Char.isWhitespace).reverse

/-- Python `s.strip().split()[0]`: the first maximal run of non-whitespace
characters of the stripped string. -/
def firstTok (s : String) : String :=
  String.mk ((pyStrip s).takeWhile (fun c => ¬ c.isWhitespace))

/-- The `pdb_to_smiles` helper of `admet_analysis.py`, with the two external
converters modelled by their outcomes.  The OpenBabel runner is a function of
the timeout argument, and the source invokes it with `timeout=10`; every
exception it may raise is the `raises` outcome, which the source catches.
The function is total: no exception escapes. -/
def pdb_to_smiles (rdkit : RDKitOutcome) (obabel : Nat → SubprocOutcome) : Option String :=
  match rdkit with
  | .ok s => some s
  | .fail =>
    match obabel OBABEL_TIMEOUT with
    | .raises => none
    | .completes rc out =>
      if rc = 0 ∧ pyStrip out ≠ [] then some (firstTok out) else none

/-- One ligand PDB file as seen by step 2 of `run_admet_prediction`: its
basename, the chain directory it came from, the outcome of `pdb_to_smiles`
and the value of `extract_docking_score`. -/
structure PdbFile where
  name : String
  chain : String
  smilesResult : Option String
  dockingScore : Rat
deriving DecidableEq, Repr

/-- One entry of the `compounds` list built by `run_admet_prediction`. -/
structure Compound where
  filename : String
  chain : String
  smiles : String
  dockingScore : Rat
deriving DecidableEq, Repr

/-- The compound-collection loop of `run_admet_prediction` (step 2): a file
is appended to `compounds` only when `pdb_to_smiles` returned a SMILES;
otherwise the loop appends nothing for it. -/
def collectCompounds (files : List PdbFile) : List Compound :=
  files.filterMap (fun f =>
    (f.smilesResult).map (fun s => ⟨f.name, f.chain, s, f.dockingScore⟩))

/-- One parsed stdout line of the Vina subprocess in `run_molecular_docking`:
pocket name, mode number and binding energy (affinity). -/
structure Pose where
  pocket : String
  pose_number : Nat
  binding_energy : Rat
deriving DecidableEq, Repr

/-- Ordering used by `ligand_best_poses.sort(key=lambda x: x['binding_energy'])`. -/
def poseLE (p q : Pose) : Prop := p.binding_energy ≤ q.binding_energy

instance : DecidableRel poseLE := fun p q =>
  inferInstanceAs (Decidable (p.binding_energy ≤ q.binding_energy))

instance : IsTotal Pose poseLE := ⟨fun p q => le_total p.binding_energy q.binding_energy⟩

instance : IsTrans Pose poseLE := ⟨fun _ _ _ h h' => le_trans h h'⟩

/-- The candidate list `ligand_best_poses` for one ligand on one chain:
across all pockets, only parsed poses with `affinity <= 0.0` are appended. -/
def keptPoses (parsed : List Pose) : List Pose :=
  parsed.filter (fun p => p.binding_energy ≤ 0)

/-- The candidate list after `sort(key=lambda x: x['binding_energy'])`
(Python's stable ascending sort). -/
def sortedKept (parsed : List Pose) : List Pose :=
  List.insertionSort poseLE (keptPoses parsed)

/-- What `summary_data.extend(ligand_best_poses[:3])` contributes for one
ligand on one chain: the 3 lowest-energy candidates. -/
def ligand_summary (parsed : List Pose) : List Pose :=
  (sortedKept parsed).take 3

/-- The `"REMARK VINA RESULT:"` marker that `extract_docking_score` looks
for with `line.startswith`. -/
def vinaMark : List Char := "REMARK VINA RESULT:".toList

/-- Python `line.startswith(marker)` on character lists. -/
def startsWithMark (l : List Char) : Bool := l.take vinaMark.length = vinaMark

/-- Accumulator form of Python `str.split()`: splits at runs of whitespace,
never producing empty tokens. -/
def wordsAux : List Char → List Char → List (List Char)
  | [], acc => if acc = [] then [] else [acc.reverse]
  | c :: cs, acc =>
    if c.isWhitespace then
      if acc = [] then wordsAux cs [] else acc.reverse :: wordsAux cs []
    else wordsAux cs (c :: acc)

/-- Python `line.split()` on a character list. -/
def pySplit (l : List Char) : List (List Char) := wordsAux l []

/-- Scan of the file lines in `extract_docking_score`.  `some (some x)`: the
loop returned `float(parts[3]) = x` at the first line that starts with the
marker and has at least 4 tokens; `some none`: that `float` call raised (the
bare `except` then yields the default); `none`: the loop ran off the end. -/
def scanLines : List (List Char) → Option (Option Rat)
  | [] => none
  | l :: ls =>
    if startsWithMark l then
      let parts := pySplit l
      if 4 ≤ parts.length then
        match pyFloatL? (parts.getD 3 []) with
        | some x => some (some x)
        | none => some none
      else scanLines ls
    else scanLines ls

/-- The `extract_docking_score` helper of `admet_analysis.py`.  The file is
`none` when `open` raises (unreadable file), otherwise its list of lines.
Every failure path returns the default mock value `-7.0`. -/
def extract_docking_score (file : Option (List (List Char))) : Rat :=
  match file with
  | none => -7
  | some lines =>
    match scanLines lines with
    | some (some x) => x
    | some none => -7
    | none => -7

/-! Rows used to instantiate the theorems on concrete inputs. -/

/-- A row whose only set field is a Stage 1 hard-reject trigger. -/
def rowLip : Row := [("Lipinski", .str "Fail")]

/-- A row with SA Score in the Stage 4 penalty band `[5.0, 6.0]`. -/
def rowMid : Row := [("SA Score", .num (mkRat 55 10))]

/-- A row with SA Score above 6.0. -/
def rowHi : Row := [("SA Score", .num (mkRat 65 10))]

/-- A row whose numeric Stage 2 fields are unparseable strings or absent. -/
def rowNA : Row := [("SA Score", .str "N/A"), ("QED", .str "")]

/-- A row carrying only the four non-property fields that `run_admet_prediction`
sets itself. -/
def rowBare : Row :=
  [("Filename", .str "lig1_pocket1_ligand.pdb"), ("Chain", .str "Chain_A"),
   ("SMILES", .str "CCO"), ("Docking Score", .num (mkRat (-72) 10))]

/-- Does `get_float` fall back to its default for this field: the field is
absent, or its value parses to no number (Python raises and the `except`
substitutes the default)? -/
def fieldDefaulted (row : Row) (k : String) : Bool :=
  match getv row k with
  | none => true
  | some v => Val.toFloat? v = none

/-- Every property field consulted by Stages 1-4. -/
def propertyKeys : List String :=
  ["Lipinski", "PAINS", "Brenk", "Ames", "hERG", "Carcinogenicity", "DILI",
   "SA Score", "QED", "MW", "TPSA", "WLogP", "GI Absorption", "Caco-2 (Wang)",
   "BBB (Martins)", "PPB (AZ)", "CYP3A4 Inhibition", "CYP2D6 Inhibition"]

/-- A file on which both extraction paths failed, with a docking score. -/
def failedFile : PdbFile :=
  ⟨"lig9_pocket2_ligand.pdb", "Chain_B", none, mkRat (-85) 10⟩

/-- Parsed Vina output for one ligand on one chain: four poses with negative
affinity and one positive one. -/
def parsed0 : List Pose :=
  [⟨"pocket1", 1, mkRat (-71) 10⟩, ⟨"pocket1", 2, mkRat 25 10⟩,
   ⟨"pocket2", 1, mkRat (-69) 10⟩, ⟨"pocket2", 2, mkRat (-75) 10⟩,
   ⟨"pocket3", 1, mkRat (-80) 10⟩]

/-- A REMARK line whose fourth token is not a float. -/
def badVinaLine : List Char := "REMARK VINA RESULT: low n/a n/a".toList

/-- A well-formed Vina REMARK line. -/
def goodVinaLine : List Char := "REMARK VINA RESULT: -9.1 0.000 0.000".toList

/-! Theorems for the claims. -/

/-- C1: if Stage 1 or Stage 2 returns REJECT, the decision loop records the
final decision as `REJECT (<reason>)` with that stage's reason and the
developability score as exactly 0; the recorded pair is produced before
Stages 3-5, whose results it does not involve. -/
theorem reject_is_terminal (row : Row)
    (h : (apply_primary_filters row).1 = "REJECT" ∨
      (apply_developability_filters row).1 = "REJECT") :
    (decideRow row).2 = 0 ∧
    (decideRow row = ("REJECT (" ++ optStr (apply_primary_filters row).2 ++ ")", 0) ∨
     decideRow row = ("REJECT (" ++ optStr (apply_developability_filters row).2 ++ ")", 0)) := by
  by_cases h1 : (apply_primary_filters row).1 = "REJECT"
  · have hd : decideRow row =
        ("REJECT (" ++ optStr (apply_primary_filters row).2 ++ ")", 0) := by
      simp only [decideRow]
      rw [if_pos h1]
    rw [hd]
    exact ⟨rfl, Or.inl rfl⟩
  · have h2 : (apply_developability_filters row).1 = "REJECT" := h.resolve_left h1
    have hd : decideRow row =
        ("REJECT (" ++ optStr (apply_developability_filters row).2 ++ ")", 0) := by
      simp only [decideRow]
      rw [if_neg h1, if_pos h2]
    rw [hd]
    exact ⟨rfl, Or.inr rfl⟩

/-- Witness for C1: the Lipinski-fail row is rejected terminally with score 0. -/
theorem reject_is_terminal_witness :
    decideRow rowLip = ("REJECT (Lipinski Fail)", 0) ∧ (decideRow rowLip).2 = 0 := by
  have h := reject_is_terminal rowLip (Or.inl (by decide))
  exact ⟨by decide, h.1⟩

/-- C2: on the Scenario B row (hERG 0.5, SA 5.5, QED 0.7, MW 300, TPSA 50,
WLogP 2, GI Absorption High, nothing else set), Stage 1 gives REVIEW
`hERG Medium Risk`, Stage 2 gives REVIEW `SA 5.0-6.0`, the ADME penalty is 10
(hERG medium band), the composite score is 80 = 100 - (10 SA + 10 hERG),
Stage 5 on 80 says ACCEPT, and the displayed decision is
`REVIEW (hERG Medium Risk; SA 5.0-6.0)`. -/
theorem scenarioB_pipeline :
    apply_primary_filters rowB = ("REVIEW", some "hERG Medium Risk") ∧
    apply_developability_filters rowB = ("REVIEW", some "SA 5.0-6.0") ∧
    calculate_adme_penalties rowB = 10 ∧
    calculate_developability_score rowB (getv rowB "Docking Score") = 80 ∧
    make_final_decision 80 = "ACCEPT" ∧
    decideRow rowB = ("REVIEW (hERG Medium Risk; SA 5.0-6.0)", 80) := by
  decide

/-- Both bounds of `max 0 (100 - p)` for a natural penalty `p`. -/
theorem max_score_range (p : Nat) :
    0 ≤ max 0 (100 - (p : Int)) ∧ max 0 (100 - (p : Int)) ≤ 100 :=
  ⟨le_max_left _ _, max_le (by norm_num) (by omega)⟩

/-- Stage 4 always lands in `[0, 100]`. -/
theorem calculate_developability_score_range (row : Row) (ds : Option Val) :
    0 ≤ calculate_developability_score row ds ∧
    calculate_developability_score row ds ≤ 100 := by
  simp only [calculate_developability_score, score_after_sa]
  split_ifs <;>
    first
      | exact ⟨le_refl 0, by norm_num⟩
      | exact max_score_range _

/-- C4: every recorded developability score lies in `[0, 100]`: Stage 4
returns `max 0 (100 - penalty)` for a non-negative penalty, and terminal
rejects record 0. -/
theorem recorded_score_in_range (row : Row) :
    (∀ ds, 0 ≤ calculate_developability_score row ds ∧
      calculate_developability_score row ds ≤ 100) ∧
    0 ≤ (decideRow row).2 ∧ (decideRow row).2 ≤ 100 := by
  refine ⟨fun ds => calculate_developability_score_range row ds, ?_⟩
  simp only [decideRow]
  split_ifs <;>
    first
      | exact ⟨le_refl 0, by norm_num⟩
      | exact calculate_developability_score_range row (getv row "Docking Score")

/-- C6: when the parsed SA Score lies in `[5.0, 6.0]`, Stage 4 subtracts 10
and then applies the QED and ADME penalties as usual; when it exceeds 6.0,
Stage 4 returns 0 immediately, with no QED or ADME penalty entering the
result. -/
theorem sa_band_and_shortcircuit (row : Row) (ds : Option Val) :
    (5 ≤ get_float row "SA Score" 5 → get_float row "SA Score" 5 ≤ 6 →
      calculate_developability_score row ds =
        max 0 (100 - ((10 + (if get_float row "QED" (mkRat 6 10) < mkRat 6 10
          then 10 else 0) + calculate_adme_penalties row : Nat) : Int))) ∧
    (6 < get_float row "SA Score" 5 → calculate_developability_score row ds = 0) := by
  constructor
  · intro h1 h2
    simp only [calculate_developability_score, score_after_sa]
    rw [if_pos ⟨h1, h2⟩]
    split_ifs with hq
    · norm_num
    · norm_num
  · intro h
    simp only [calculate_developability_score]
    rw [if_neg (fun hc => absurd h (not_lt.mpr hc.2)), if_pos h]

/-- Witness for C6: SA 5.5 lands in the penalty band (score 90 on an
otherwise-empty row), SA 6.5 short-circuits to 0. -/
theorem sa_band_and_shortcircuit_witness :
    calculate_developability_score rowMid none = 90 ∧
    calculate_developability_score rowHi none = 0 := by
  constructor
  · have h := (sa_band_and_shortcircuit rowMid none).1 (by decide) (by decide)
    rw [h]; decide
  · exact (sa_band_and_shortcircuit rowHi none).2 (by decide)

/-- When a field is absent or unparseable, `get_float` yields its default. -/
theorem get_float_defaulted (row : Row) (k : String) (d : Rat)
    (h : fieldDefaulted row k = true) : get_float row k d = d := by
  unfold fieldDefaulted at h
  unfold get_float
  cases hv : getv row k with
  | none => rfl
  | some v =>
    rw [hv] at h
    simp only [decide_eq_true_eq] at h
    show (Val.toFloat? v).getD d = d
    rw [h]
    rfl

/-- C5: a row on which SA Score, QED, MW, TPSA and WLogP are each absent or
numerically unparseable is evaluated on the defaults 5.0, 0.6, 400, 100, 3,
and Stage 2 returns `('ACCEPT', None)`: no default triggers a reject or
review reason. -/
theorem defaults_give_accept (row : Row)
    (h1 : fieldDefaulted row "SA Score" = true)
    (h2 : fieldDefaulted row "QED" = true)
    (h3 : fieldDefaulted row "MW" = true)
    (h4 : fieldDefaulted row "TPSA" = true)
    (h5 : fieldDefaulted row "WLogP" = true) :
    apply_developability_filters row = ("ACCEPT", none) := by
  simp only [apply_developability_filters]
  rw [get_float_defaulted row "SA Score" 5 h1,
    get_float_defaulted row "QED" (mkRat 6 10) h2,
    get_float_defaulted row "MW" 400 h3,
    get_float_defaulted row "TPSA" 100 h4,
    get_float_defaulted row "WLogP" 3 h5]
  decide

/-- Witness for C5: SA Score "N/A", QED the empty string, MW/TPSA/WLogP
absent — Stage 2 accepts. -/
theorem defaults_give_accept_witness :
    apply_developability_filters rowNA = ("ACCEPT", none) :=
  defaults_give_accept rowNA (by decide) (by decide) (by decide) (by decide)
    (by decide)

/-- C9: a row on which every property field is absent (only Filename, Chain,
SMILES and Docking Score may be set) passes Stage 1, is accepted by Stage 2
with no reason, gets ADME penalty 0, yet scores exactly 90 rather than 100 —
the default SA Score 5.0 sits inside Stage 4's inclusive band `[5.0, 6.0]`
although it triggers no Stage 2 reason — and displays `ACCEPT` with no
suffix. -/
theorem bare_row_scores_ninety (row : Row)
    (h : ∀ k ∈ propertyKeys, getv row k = none) :
    apply_primary_filters row = ("PASS", none) ∧
    apply_developability_filters row = ("ACCEPT", none) ∧
    calculate_adme_penalties row = 0 ∧
    (∀ ds, calculate_developability_score row ds = 90) ∧
    decideRow row = ("ACCEPT", 90) := by
  have k01 := h "Lipinski" (by decide)
  have k02 := h "PAINS" (by decide)
  have k03 := h "Brenk" (by decide)
  have k04 := h "Ames" (by decide)
  have k05 := h "hERG" (by decide)
  have k06 := h "Carcinogenicity" (by decide)
  have k07 := h "DILI" (by decide)
  have k08 := h "SA Score" (by decide)
  have k09 := h "QED" (by decide)
  have k10 := h "MW" (by decide)
  have k11 := h "TPSA" (by decide)
  have k12 := h "WLogP" (by decide)
  have k13 := h "GI Absorption" (by decide)
  have k14 := h "Caco-2 (Wang)" (by decide)
  have k15 := h "BBB (Martins)" (by decide)
  have k16 := h "PPB (AZ)" (by decide)
  have k17 := h "CYP3A4 Inhibition" (by decide)
  have k18 := h "CYP2D6 Inhibition" (by decide)
  have hp : apply_primary_filters row = ("PASS", none) := by
    simp only [apply_primary_filters, getD, k01, k02, k03, k04, k05, k06, k07]
    decide
  have hd : apply_developability_filters row = ("ACCEPT", none) := by
    simp only [apply_developability_filters, get_float, k08, k09, k10, k11, k12]
    decide
  have ha : calculate_adme_penalties row = 0 := by
    simp only [calculate_adme_penalties, getD, get_float, k05, k13, k14, k15,
      k16, k17, k18]
    decide
  have hs : ∀ ds, calculate_developability_score row ds = 90 := by
    intro ds
    simp only [calculate_developability_score, score_after_sa, get_float,
      k08, k09, ha]
    decide
  refine ⟨hp, hd, ha, hs, ?_⟩
  simp only [decideRow, hp, hd, hs (getv row "Docking Score")]
  decide

/-- Witness for C9: the row with only Filename, Chain, SMILES and Docking
Score scores 90 and displays a bare ACCEPT. -/
theorem bare_row_scores_ninety_witness :
    decideRow rowBare = ("ACCEPT", 90) ∧
    calculate_developability_score rowBare none = 90 :=
  ⟨(bare_row_scores_ninety rowBare (by decide)).2.2.2.2,
   (bare_row_scores_ninety rowBare (by decide)).2.2.2.1 none⟩

/-- C7: `pdb_to_smiles` is a total function into `Option String` (no
exception escapes, by totality over all modelled outcomes of the two external
converters).  A strict-path success is returned as is, and then the fallback
runner plays no role; on strict-path failure the result is determined by the
runner's outcome at timeout 10 only: an exception gives `none`, and a
completed run gives the first whitespace-delimited stdout token exactly when
the exit code is 0 and the stripped stdout is nonempty, `none` otherwise. -/
theorem pdb_to_smiles_contract (rdkit : RDKitOutcome)
    (obabel : Nat → SubprocOutcome) :
    (∀ s, rdkit = .ok s → pdb_to_smiles rdkit obabel = some s) ∧
    (∀ obabel2 : Nat → SubprocOutcome, obabel OBABEL_TIMEOUT = obabel2 OBABEL_TIMEOUT →
      pdb_to_smiles rdkit obabel = pdb_to_smiles rdkit obabel2) ∧
    (rdkit = .fail → obabel OBABEL_TIMEOUT = .raises →
      pdb_to_smiles rdkit obabel = none) ∧
    (∀ rc out, rdkit = .fail → obabel OBABEL_TIMEOUT = .completes rc out →
      pdb_to_smiles rdkit obabel =
        if rc = 0 ∧ pyStrip out ≠ [] then some (firstTok out) else none) := by
  refine ⟨?_, ?_, ?_, ?_⟩
  · intro s hs
    rw [hs]
    rfl
  · intro obabel2 heq
    cases rdkit with
    | ok s => rfl
    | fail => simp only [pdb_to_smiles, heq]
  · intro hr ho
    rw [hr]
    simp only [pdb_to_smiles, ho]
  · intro rc out hr ho
    rw [hr]
    simp only [pdb_to_smiles, ho]

/-- Witness for C7: with the strict path failing and OpenBabel printing
`CCO lig9.pdb` with exit code 0, the extractor returns the first token. -/
theorem pdb_to_smiles_contract_witness :
    pdb_to_smiles .fail (fun _ => .completes 0 "CCO lig9.pdb") = some "CCO" := by
  have h := (pdb_to_smiles_contract .fail
      (fun _ => .completes 0 "CCO lig9.pdb")).2.2.2 0 "CCO lig9.pdb" rfl rfl
  rw [h]
  decide

/-- Counterexample to C3 as stated: a file on which both extraction paths
fail is not retained in the compound list at all, so in particular it is not
recorded with its docking score. -/
theorem failed_extraction_dropped :
    failedFile.smilesResult = none ∧ collectCompounds [failedFile] = [] := by
  decide

/-- C3 amended: a coordinate file on which both paths fail contributes
nothing to the compound table — the collected output is exactly that of the
successfully extracted files, so the failed compound's docking score is not
recorded either. -/
theorem failed_extraction_excluded (files : List PdbFile) :
    collectCompounds files =
      collectCompounds (files.filter (fun f => f.smilesResult.isSome)) ∧
    (collectCompounds files).length =
      (files.filter (fun f => f.smilesResult.isSome)).length := by
  induction files with
  | nil => exact ⟨rfl, rfl⟩
  | cons f fs ih =>
    cases hf : f.smilesResult with
    | none =>
      simpa [collectCompounds, List.filterMap_cons, List.filter_cons, hf]
        using ih
    | some s =>
      simpa [collectCompounds, List.filterMap_cons, List.filter_cons, hf]
        using ih

/-- C8: for one ligand on one receptor chain, the candidate list holds
exactly the parsed poses with binding energy ≤ 0.0; it is then sorted by
binding energy ascending and at most its 3 best poses enter the summary:
the summary has length ≤ 3, consists of kept poses, and every summary pose
is ≤ every sorted-out candidate. -/
theorem summary_top3 (parsed : List Pose) :
    (∀ p, p ∈ keptPoses parsed ↔ p ∈ parsed ∧ p.binding_energy ≤ 0) ∧
    ligand_summary parsed = (sortedKept parsed).take 3 ∧
    (ligand_summary parsed).length ≤ 3 ∧
    (sortedKept parsed).Perm (keptPoses parsed) ∧
    List.Sorted poseLE (sortedKept parsed) ∧
    (∀ p ∈ ligand_summary parsed, ∀ q ∈ (sortedKept parsed).drop 3, poseLE p q) := by
  refine ⟨?_, rfl, ?_, ?_, ?_, ?_⟩
  · intro p
    simp [keptPoses, List.mem_filter]
  · simp only [ligand_summary, List.length_take]
    exact min_le_left 3 _
  · exact List.perm_insertionSort poseLE (keptPoses parsed)
  · exact List.sorted_insertionSort poseLE (keptPoses parsed)
  · have hs : List.Sorted poseLE ((sortedKept parsed).take 3 ++ (sortedKept parsed).drop 3) := by
      rw [List.take_append_drop]
      exact List.sorted_insertionSort poseLE (keptPoses parsed)
    intro p hp q hq
    exact (List.pairwise_append.mp hs).2.2 p hp q hq

/-- Witness for C8: on `parsed0` the positive-affinity pose is dropped, the
summary has at most 3 poses, and the best retained pose precedes the
sorted-out fourth candidate. -/
theorem summary_top3_witness :
    (Pose.mk "pocket1" 2 (mkRat 25 10) ∉ keptPoses parsed0) ∧
    (ligand_summary parsed0).length ≤ 3 ∧
    poseLE (Pose.mk "pocket3" 1 (mkRat (-80) 10)) (Pose.mk "pocket2" 1 (mkRat (-69) 10)) := by
  refine ⟨?_, (summary_top3 parsed0).2.2.1, ?_⟩
  · intro hmem
    exact absurd (((summary_top3 parsed0).1 _).mp hmem).2 (by decide)
  · exact (summary_top3 parsed0).2.2.2.2.2 _ (by decide) _ (by decide)

/-- A scan over lines none of which both carry the marker and have 4 tokens
falls off the end of the loop. -/
theorem scanLines_none (lines : List (List Char))
    (h : ∀ l ∈ lines, startsWithMark l = true → (pySplit l).length < 4) :
    scanLines lines = none := by
  induction lines with
  | nil => rfl
  | cons l ls ih =>
    have ihls : scanLines ls = none :=
      ih (fun x hx => h x (List.mem_cons_of_mem l hx))
    simp only [scanLines]
    by_cases h1 : startsWithMark l = true
    · rw [if_pos h1,
        if_neg (by have := h l (List.mem_cons_self l ls) h1; omega)]
      exact ihls
    · rw [if_neg h1]
      exact ihls

/-- A scan returns at the first line that carries the marker and has at
least 4 tokens: the parse result of its fourth token, exception included. -/
theorem scanLines_first (pre : List (List Char)) (l : List Char)
    (post : List (List Char))
    (hpre : ∀ x ∈ pre, startsWithMark x = true → (pySplit x).length < 4)
    (hl : startsWithMark l = true) (hlen : 4 ≤ (pySplit l).length) :
    scanLines (pre ++ l :: post) = some (pyFloatL? ((pySplit l).getD 3 [])) := by
  induction pre with
  | nil =>
    simp only [List.nil_append, scanLines]
    rw [if_pos hl, if_pos hlen]
    cases hp : pyFloatL? ((pySplit l).getD 3 []) <;> simp [hp]
  | cons x xs ih =>
    have ihx := ih (fun y hy => hpre y (List.mem_cons_of_mem x hy))
    simp only [List.cons_append, scanLines]
    by_cases h1 : startsWithMark x = true
    · rw [if_pos h1,
        if_neg (by have := hpre x (List.mem_cons_self x xs) h1; omega)]
      exact ihx
    · rw [if_neg h1]
      exact ihx

/-- Counterexample to C10 as stated: a readable file whose first line starts
with `REMARK VINA RESULT:` and has at least 4 tokens, yet
`extract_docking_score` returns the default -7.0 because the fourth token
(`low`) has no float value — so the result is neither -7.0-by-absence nor
the fourth token parsed as a float. -/
theorem docking_score_default_on_parse_error :
    startsWithMark badVinaLine = true ∧
    4 ≤ (pySplit badVinaLine).length ∧
    pyFloatL? ((pySplit badVinaLine).getD 3 []) = none ∧
    extract_docking_score (some [badVinaLine]) = -7 := by
  decide

/-- C10 amended: `extract_docking_score` returns -7.0 when the file cannot
be read, when no line both starts with `REMARK VINA RESULT:` and has at
least 4 whitespace-separated tokens, and also when the fourth token of the
first such line does not parse as a float; when it does parse, that value is
returned.  The result is therefore always defined but may not come from the
file. -/
theorem extract_docking_score_amended (file : Option (List (List Char))) :
    (file = none → extract_docking_score file = -7) ∧
    (∀ lines, file = some lines →
      ((∀ l ∈ lines, startsWithMark l = true → (pySplit l).length < 4) →
        extract_docking_score file = -7) ∧
      (∀ pre l post, lines = pre ++ l :: post →
        (∀ x ∈ pre, startsWithMark x = true → (pySplit x).length < 4) →
        startsWithMark l = true → 4 ≤ (pySplit l).length →
        extract_docking_score file =
          (pyFloatL? ((pySplit l).getD 3 [])).getD (-7))) := by
  constructor
  · intro h
    rw [h]
    rfl
  · intro lines hf
    subst hf
    constructor
    · intro hmiss
      simp only [extract_docking_score, scanLines_none lines hmiss]
    · intro pre l post hsplit hpre hl hlen
      subst hsplit
      simp only [extract_docking_score, scanLines_first pre l post hpre hl hlen]
      cases hp : pyFloatL? ((pySplit l).getD 3 []) <;> simp [hp]

/-- Witness for C10: an unreadable file gives -7.0, and a file whose first
line is a well-formed Vina REMARK gives that line's fourth token, -9.1. -/
theorem extract_docking_score_amended_witness :
    extract_docking_score none = -7 ∧
    extract_docking_score (some [goodVinaLine]) = mkRat (-91) 10 := by
  constructor
  · exact (extract_docking_score_amended none).1 rfl
  · have h := ((extract_docking_score_amended (some [goodVinaLine])).2
      [goodVinaLine] rfl).2 [] goodVinaLine [] rfl (by simp) (by decide)
      (by decide)
    rw [h]
    decide

end DrugsPipeline
